import Mathlib

/-!
# Verification of the crewnecta-qa-flow pipeline and its deterministic tools

Shallow embedding of the repository's deterministic code:

* `tools/scorecard_calc.py` — the weighted QA scorecard calculator;
* `tools/compliance_matcher.py` — the compliance phrase matcher;
* `tools/red_flag_scanner.py` — the keyword red-flag scanner;
* `flow/qa_auditor_flow.py` — `_parse_json_safe` and the staged
  `QAAuditorFlow` pipeline over `state/models.py`'s `QAAuditorState`.

Modelling conventions:

* Python floats are modelled as exact rationals (`ℚ`); Python's `round`
  (banker's rounding, round-half-to-even) is `pyRoundInt` below.
* Python's `needle in haystack` substring test is `strContains`;
  `str.lower()` is `pyLower` (character-wise; the phrase tables are ASCII).
* The external LLM "Analysis Service" calls (CrewAI `kickoff`) are
  modelled as oracle arguments: per-item outcome values saying whether the
  call raised, produced unparsable output, or produced a parsed record
  with optional fields (a Python dict read with `.get` and defaults).
  Pydantic range validation at construction sites is modelled by explicit
  range checks whose failure takes the same path as a raised call.
* `list.sort(key=..., reverse=True)` (a stable descending sort) is
  modelled with `List.mergeSort` on the reversed comparison, which is the
  unique stable sort for that ordering.
* Report strings are built with the same line structure as the source;
  the rendering of numbers inside report text uses `ℚ`'s `toString`
  (float repr is abstracted), and `datetime.now()` is an explicit
  timestamp argument.
-/

/-! ## Rational helpers: Python `round` -/

/-- Python's `round` to an integer: round half to even (banker's rounding). -/
def pyRoundInt (q : ℚ) : ℤ :=
  let f : ℤ := ⌊q⌋
  if q - f < 1/2 then f
  else if (1 : ℚ)/2 < q - f then f + 1
  else if f % 2 = 0 then f else f + 1

/-- Python's `round(x, 2)` on exact rationals. -/
def pyRound2 (q : ℚ) : ℚ := (pyRoundInt (q * 100) : ℚ) / 100

/-- Python's `round(x, 1)` on exact rationals. -/
def pyRound1 (q : ℚ) : ℚ := (pyRoundInt (q * 10) : ℚ) / 10

/-! ## String helpers: Python's `in` substring test -/

/-- First index (if any) at which `n` occurs as a contiguous sublist of the
second argument. -/
def firstSubIdx (n : List Char) : List Char → Option Nat
  | [] => if n = [] then some 0 else none
  | c :: t => if n.isPrefixOf (c :: t) then some 0 else (firstSubIdx n t).map (· + 1)

/-- Truth of `hasSub n h` says that `n` occurs contiguously inside `h`. -/
def hasSub (n : List Char) (h : List Char) : Bool := (firstSubIdx n h).isSome

/-- Python's `needle in haystack` on strings. -/
def strContains (haystack needle : String) : Bool := hasSub needle.data haystack.data

/-- Python's `str.lower()` (character-wise ASCII lowering; every phrase
table is ASCII). -/
def pyLower (s : String) : String := String.mk (s.data.map Char.toLower)

/-! ## Scorecard calculator (`tools/scorecard_calc.py`) -/

/-- One weight profile: weights for the four scoring dimensions. -/
structure WeightProfile where
  compliance : ℚ
  empathy : ℚ
  resolution : ℚ
  process_adherence : ℚ
deriving DecidableEq

/-- The `WEIGHT_PROFILES["standard"]` entry. -/
def standardProfile : WeightProfile :=
  { compliance := 30/100, empathy := 25/100, resolution := 25/100, process_adherence := 20/100 }

/-- The `WEIGHT_PROFILES` table. -/
def WEIGHT_PROFILES : List (String × WeightProfile) :=
  [("standard", standardProfile),
   ("compliance_heavy",
     { compliance := 45/100, empathy := 15/100, resolution := 20/100, process_adherence := 20/100 }),
   ("cx_focused",
     { compliance := 20/100, empathy := 35/100, resolution := 30/100, process_adherence := 15/100 })]

/-- Python's `WEIGHT_PROFILES.get(weight_profile, WEIGHT_PROFILES["standard"])`. -/
def lookupProfile (k : String) : WeightProfile :=
  (WEIGHT_PROFILES.lookup k).getD standardProfile

/-- Output of `QAScorecardCalculator._run` (the JSON object's fields; the
breakdown keeps the four rounded weighted scores). -/
structure ScorecardResult where
  overall_score : ℚ
  performance_band : String
  weight_profile_used : String
  weighted_compliance : ℚ
  weighted_empathy : ℚ
  weighted_resolution : ℚ
  weighted_process_adherence : ℚ
deriving DecidableEq

/-- Embedding of `QAScorecardCalculator._run`. -/
def scorecardRun (compliance_score empathy_score resolution_score process_adherence_score : ℚ)
    (weight_profile : String) : ScorecardResult :=
  let w := lookupProfile weight_profile
  let wc := pyRound2 (compliance_score * w.compliance)
  let we := pyRound2 (empathy_score * w.empathy)
  let wr := pyRound2 (resolution_score * w.resolution)
  let wp := pyRound2 (process_adherence_score * w.process_adherence)
  let overall := pyRound2 (wc + we + wr + wp)
  let band :=
    if 90 ≤ overall then "exceeds_expectations"
    else if 75 ≤ overall then "meets_expectations"
    else if 60 ≤ overall then "needs_improvement"
    else "critical"
  { overall_score := overall, performance_band := band, weight_profile_used := weight_profile,
    weighted_compliance := wc, weighted_empathy := we,
    weighted_resolution := wr, weighted_process_adherence := wp }

/-- The performance band exactly as the spec's threshold sentence words it:
at least 90 `exceeds_expectations`, at least 75 `meets_expectations`,
at least 60 `needs_improvement`, otherwise `critical`. -/
def bandPerSpec (overall : ℚ) : String :=
  if 90 ≤ overall then "exceeds_expectations"
  else if 75 ≤ overall then "meets_expectations"
  else if 60 ≤ overall then "needs_improvement"
  else "critical"

/-! ## Compliance pattern matcher (`tools/compliance_matcher.py`) -/

/-- One named sub-requirement: a requirement label and its trigger phrases. -/
abbrev Requirement := String × List String

/-- A requirement set: `must_contain` and `must_not_contain` sub-requirements. -/
structure RequirementSet where
  must_contain : List Requirement
  must_not_contain : List Requirement
deriving DecidableEq

/-- The `REQUIREMENT_SETS["general"]` entry. -/
def generalSet : RequirementSet :=
  { must_contain :=
      [("call_recording_disclosure",
        ["call may be recorded", "call is being recorded", "this call is recorded",
         "for quality and training", "chat is being recorded"]),
       ("identity_verification",
        ["verify your identity", "confirm your name", "can you confirm",
         "for security purposes", "verify your account"])],
    must_not_contain :=
      [("full_card_readback",
        ["your card number is", "card number is ", "read back your card",
         "your full card number"]),
       ("ssn_spoken",
        ["your social security number is", "your ssn is"])] }

/-- The `REQUIREMENT_SETS` table. -/
def REQUIREMENT_SETS : List (String × RequirementSet) :=
  [("general", generalSet),
   ("pci_dss",
     { must_contain :=
         [("secure_payment_redirect",
           ["secure payment", "transfer you to our payment system", "payment portal",
            "secure line"])],
       must_not_contain :=
         [("card_number_spoken",
           ["your card number is", "card number is ", "read back your card",
            "repeat your card", "full card number"]),
          ("cvv_spoken", ["your cvv is", "security code is", "cvv number is"]),
          ("card_stored",
           ["we have your card on file", "stored your card", "keep your card"])] }),
   ("collections",
     { must_contain :=
         [("mini_miranda",
           ["this is an attempt to collect a debt",
            "any information obtained will be used for that purpose", "debt collector"]),
          ("right_party_verification",
           ["am i speaking with", "is this", "confirm your identity"])],
       must_not_contain :=
         [("third_party_disclosure",
           ["tell them they owe", "inform your family", "let your employer know"]),
          ("threats",
           ["we will have you arrested", "go to jail", "sue you", "garnish your wages"])] }),
   ("sales",
     { must_contain :=
         [("terms_and_conditions",
           ["terms and conditions", "terms of service", "by agreeing",
            "do you accept the terms"]),
          ("cancellation_policy",
           ["cancel within", "cancellation policy", "cooling off period",
            "money back guarantee"]),
          ("pricing_disclosure",
           ["total cost", "monthly charge", "per month", "billed at", "price is"])],
       must_not_contain :=
         [("misleading_claims",
           ["guaranteed to", "you will definitely", "100% guaranteed", "no risk at all"])] })]

/-- Python's `REQUIREMENT_SETS.get(requirement_set, REQUIREMENT_SETS["general"])`. -/
def lookupReqSet (k : String) : RequirementSet :=
  (REQUIREMENT_SETS.lookup k).getD generalSet

/-- One entry of the `results` list emitted by `CompliancePatternMatcher._run`:
`phrases` holds `matched_phrases` for a must-contain check and
`violation_phrases_found` for a must-not-contain check. -/
structure ComplianceCheck where
  requirement : String
  checkType : String
  status : String
  phrases : List String
deriving DecidableEq

/-- Output of `CompliancePatternMatcher._run` (the JSON object's fields). -/
structure ComplianceResult where
  requirement_set : String
  total_checks : Nat
  passed : Nat
  failed : Nat
  compliance_rate : ℚ
  results : List ComplianceCheck
deriving DecidableEq

/-- Embedding of `CompliancePatternMatcher._run`.  The source's running `total`/`passed`
counters are recovered from the per-requirement result list: `total` is one
per requirement checked, `passed` counts the PASS entries. -/
def complianceRun (transcript_text : String) (requirement_set : String) : ComplianceResult :=
  let reqs := lookupReqSet requirement_set
  let textLower := pyLower transcript_text
  let mcResults := reqs.must_contain.map (fun req =>
    let matched := req.2.filter (fun p => strContains textLower p)
    { requirement := req.1, checkType := "must_contain",
      status := if req.2.any (fun p => strContains textLower p) then "PASS" else "FAIL",
      phrases := matched })
  let mncResults := reqs.must_not_contain.map (fun req =>
    let violations := req.2.filter (fun p => strContains textLower p)
    { requirement := req.1, checkType := "must_not_contain",
      status := if violations.length = 0 then "PASS" else "FAIL",
      phrases := violations })
  let results := mcResults ++ mncResults
  let total := results.length
  let passed := (results.filter (fun r => r.status = "PASS")).length
  { requirement_set := requirement_set, total_checks := total, passed := passed,
    failed := total - passed,
    compliance_rate := if 0 < total then pyRound1 ((passed : ℚ) / (total : ℚ) * 100) else 100,
    results := results }

/-- The `call_recording_disclosure` phrase list of the `general` set. -/
def callRecordingPhrases : List String :=
  ["call may be recorded", "call is being recorded", "this call is recorded",
   "for quality and training", "chat is being recorded"]

/-- The `identity_verification` phrase list of the `general` set. -/
def identityVerificationPhrases : List String :=
  ["verify your identity", "confirm your name", "can you confirm",
   "for security purposes", "verify your account"]

/-- All `must_not_contain` phrases of the `general` set. -/
def generalForbiddenPhrases : List String :=
  ["your card number is", "card number is ", "read back your card",
   "your full card number", "your social security number is", "your ssn is"]

/-! ## Keyword red-flag scanner (`tools/red_flag_scanner.py`) -/

/-- One emitted red flag. -/
structure RedFlag where
  flagType : String
  category : String
  severity : String
  matched_pattern : String
deriving DecidableEq

/-- Output of `KeywordRedFlagScanner._run` (the JSON object's fields). -/
structure ScanResult where
  flags_found : Nat
  flags : List RedFlag
  risk_score : ℚ
  priority : String
deriving DecidableEq

/-- The `compliance_patterns` table (severity critical). -/
def compliancePatterns : List (String × List String) :=
  [("card_number_exposure",
    ["card number is", "your card number", "read back", "credit card",
     "card ending in", "full card"]),
   ("missing_disclosure",
    ["call may be recorded", "call is being recorded", "for quality and training",
     "chat is being recorded"]),
   ("data_handling",
    ["social security", "ssn", "date of birth", "mother's maiden"])]

/-- The `complaint_patterns` table (severity high). -/
def complaintPatterns : List (String × List String) :=
  [("escalation_request",
    ["speak to a manager", "speak to a supervisor", "transfer me to", "your manager",
     "escalate", "file a complaint", "formal complaint"]),
   ("churn_risk",
    ["cancel my", "cancellation", "switch to", "competitor", "leaving",
     "done with you", "never coming back"]),
   ("frustration",
    ["unacceptable", "ridiculous", "worst service", "been waiting", "third time",
     "already told", "keep repeating", "waste of time"])]

/-- The `process_patterns` table (severity medium). -/
def processPatterns : List (String × List String) :=
  [("hold_issues", ["been on hold", "long hold", "holding for", "waited for"]),
   ("transfer_issues",
    ["transferred again", "third person", "keep getting transferred", "bounced around"]),
   ("repeat_contact",
    ["called before", "called yesterday", "already contacted", "third time calling",
     "same issue"])]

/-- The `disclosure_phrases` list used for the absence-triggered flag. -/
def disclosurePhrases : List String :=
  ["call may be recorded", "call is being recorded", "for quality and training",
   "chat is being recorded"]

/-- One category scan loop: a flag per pattern of the category present in the
lowercased text, in table order. -/
def scanTable (ty sev : String) (tbl : List (String × List String)) (textLower : String) :
    List RedFlag :=
  tbl.flatMap (fun cp =>
    (cp.2.filter (fun p => strContains textLower p)).map (fun p =>
      { flagType := ty, category := cp.1, severity := sev, matched_pattern := p }))

/-- The synthetic flag appended when a required disclosure is absent. -/
def missingDisclosureFlag : RedFlag :=
  { flagType := "compliance", category := "missing_disclosure", severity := "critical",
    matched_pattern := "(no recording disclosure found)" }

/-- The `severity_weights` dict (`critical` 1.0, `high` 0.7, `medium` 0.4;
only these three severities are ever constructed). -/
def severityWeight (sev : String) : ℚ :=
  if sev = "critical" then 1 else if sev = "high" then 7/10
  else if sev = "medium" then 2/5 else 0

/-- Python's `max(severity_weights[f["severity"]] for f in flags)`; the flags list is
nonempty whenever this is consulted and every weight is positive, so folding
from `0` computes the same maximum. -/
def maxSeverityWeight (flags : List RedFlag) : ℚ :=
  (flags.map (fun f => severityWeight f.severity)).foldr max 0

/-- Embedding of `KeywordRedFlagScanner._run`.  The source's in-loop `continue` on the
`missing_disclosure` category is modelled by filtering that category out of
the compliance table before the scan. -/
def kwScanRun (transcript_text channel : String) : ScanResult :=
  let textLower := pyLower transcript_text
  let hasDisclosure := disclosurePhrases.any (fun p => strContains textLower p)
  let flags :=
    scanTable "compliance" "critical"
        (compliancePatterns.filter (fun cp => cp.1 ≠ "missing_disclosure")) textLower
      ++ (if !hasDisclosure ∧ (channel = "voice" ∨ channel = "chat")
          then [missingDisclosureFlag] else [])
      ++ scanTable "complaint" "high" complaintPatterns textLower
      ++ scanTable "process" "medium" processPatterns textLower
  let risk_score : ℚ :=
    if flags.length ≠ 0 then min 1 (maxSeverityWeight flags + ((flags.length : ℚ) - 1) * (5/100))
    else 1/10
  { flags_found := flags.length, flags := flags, risk_score := pyRound2 risk_score,
    priority :=
      if 7/10 ≤ risk_score then "high"
      else if 4/10 ≤ risk_score then "medium" else "low" }

/-- Every trigger phrase the scan loops test for, other than the
`missing_disclosure` category handled by the absence check. -/
def scannedTriggerPhrases : List String :=
  (compliancePatterns.filter (fun cp => cp.1 ≠ "missing_disclosure")).flatMap Prod.snd
    ++ complaintPatterns.flatMap Prod.snd ++ processPatterns.flatMap Prod.snd

/-! ## Result parser (`_parse_json_safe` in `flow/qa_auditor_flow.py`)

`json.loads` is a library call outside the repository; it is abstracted as a
`parse : String → Option α` argument.  The three regular expressions of the
source are modelled by direct extraction functions with the same match
semantics on a leftmost match:

* `r"```json\s*(.*?)\s*```"` (DOTALL): content between the first
  ````` ```json ````` and the next ````` ``` `````, trimmed of surrounding
  whitespace;
* `r"```\s*(.*?)\s*```"` (DOTALL): the same for the first ````` ``` `````;
* `r"(\{.*\})"` (DOTALL, greedy): from the first `\x7b` to the last `\x7d`.
-/

/-- Python's `\s` whitespace class (ASCII part). -/
def isPyWS (c : Char) : Bool :=
  c = ' ' ∨ c = '\t' ∨ c = '\n' ∨ c = '\r' ∨ c = Char.ofNat 11 ∨ c = Char.ofNat 12

/-- Strip `\s*` from both ends, as the greedy `\s*` groups around the lazy
capture do. -/
def trimWS (l : List Char) : List Char :=
  ((l.dropWhile isPyWS).reverse.dropWhile isPyWS).reverse

/-- Content between the fence opened by `openTag` and the next closing
````` ``` `````, whitespace-trimmed; `none` when no match exists. -/
def extractFence (openTag : List Char) (raw : List Char) : Option (List Char) :=
  match firstSubIdx openTag raw with
  | none => none
  | some i =>
    let rest := raw.drop (i + openTag.length)
    match firstSubIdx "```".data rest with
    | none => none
    | some j => some (trimWS (rest.take j))

/-- The `r"```json\s*(.*?)\s*```"` extraction. -/
def extractJsonFence (raw : String) : Option String :=
  (extractFence "```json".data raw.data).map List.asString

/-- The `r"```\s*(.*?)\s*```"` extraction. -/
def extractAnyFence (raw : String) : Option String :=
  (extractFence "```".data raw.data).map List.asString

/-- The opening brace character. -/
def lbrace : Char := Char.ofNat 123

/-- The closing brace character. -/
def rbrace : Char := Char.ofNat 125

/-- First index of a character in a list. -/
def firstCharIdx (c : Char) : List Char → Option Nat
  | [] => none
  | d :: t => if d = c then some 0 else (firstCharIdx c t).map (· + 1)

/-- The `r"(\{.*\})"` greedy extraction: from the first opening brace to the
last closing brace, when the latter comes after the former. -/
def extractBraces (raw : String) : Option String :=
  match firstCharIdx lbrace raw.data with
  | none => none
  | some i =>
    match firstCharIdx rbrace raw.data.reverse with
    | none => none
    | some k =>
      let j := raw.data.length - 1 - k
      if i < j then some ((raw.data.drop i).take (j - i + 1)).asString else none

/-- Embedding of `_parse_json_safe`: direct parse first, then the three extractions in
order, each attempt's parse failure falling through to the next; `none` when
all four attempts fail. -/
def parseJsonSafe {α : Type} (parse : String → Option α) (raw : String) : Option α :=
  match parse raw with
  | some v => some v
  | none =>
    match (extractJsonFence raw).bind parse with
    | some v => some v
    | none =>
      match (extractAnyFence raw).bind parse with
      | some v => some v
      | none => (extractBraces raw).bind parse

/-! ## State models (`state/models.py`) -/

/-- Embedding of `ComplianceSeverity`. -/
inductive ComplianceSeverity
  | critical
  | major
  | minor
  | severityNone
deriving DecidableEq

/-- Python's `.value` of the severity enum. -/
def ComplianceSeverity.value : ComplianceSeverity → String
  | .critical => "critical"
  | .major => "major"
  | .minor => "minor"
  | .severityNone => "none"

/-- Embedding of `InteractionTranscript`. -/
structure InteractionTranscript where
  interaction_id : String
  agent_id : String
  agent_name : String
  channel : String
  timestamp : String
  duration_seconds : Option ℤ
  transcript_text : String
  customer_issue : String
  resolution_status : String
deriving DecidableEq

/-- Embedding of `RiskScore` (the pydantic `0 ≤ risk_score ≤ 1` bound is
checked at construction sites). -/
structure RiskScore where
  interaction_id : String
  risk_score : ℚ
  risk_factors : List String
  priority_for_review : String
deriving DecidableEq

/-- Embedding of `QAEvaluation` (dimension-score bounds checked at
construction sites). -/
structure QAEvaluation where
  interaction_id : String
  agent_id : String
  compliance_score : ℚ
  empathy_score : ℚ
  resolution_score : ℚ
  process_adherence_score : ℚ
  overall_score : ℚ
  compliance_issues : List String
  strengths : List String
  improvement_areas : List String
  compliance_severity : ComplianceSeverity
deriving DecidableEq

/-- Embedding of `PatternInsight`. -/
structure PatternInsight where
  pattern_type : String
  description : String
  affected_agents : List String
  frequency : String
  evidence_interaction_ids : List String
  recommended_action : String
deriving DecidableEq

/-- Embedding of `CoachingPlan`. -/
structure CoachingPlan where
  agent_id : String
  agent_name : String
  overall_performance : String
  key_strengths : List String
  priority_improvements : List String
  specific_examples : List String
  suggested_training : List String
  follow_up_timeline : String
deriving DecidableEq

/-- One entry of `state.critical_violations` (a Python dict with keys
`interaction_id`, `agent_id`, `issues`). -/
structure CriticalViolation where
  interaction_id : String
  agent_id : String
  issues : List String
deriving DecidableEq

/-- Embedding of `QAAuditorState`.  `average_scores` (a Python dict keyed by
dimension name) is an association list. -/
structure QAAuditorState where
  raw_transcripts : List InteractionTranscript := []
  campaign_name : String := ""
  evaluation_period : String := ""
  compliance_requirements : List String := []
  risk_scores : List RiskScore := []
  qa_evaluations : List QAEvaluation := []
  pattern_insights : List PatternInsight := []
  average_scores : List (String × ℚ) := []
  has_critical_violations : Bool := false
  critical_violations : List CriticalViolation := []
  agents_needing_coaching : List String := []
  coaching_plans : List CoachingPlan := []
  compliance_escalation_report : String := ""
  executive_summary : String := ""
  detailed_qa_report : String := ""
  errors : List String := []
  processing_status : String := "pending"
  transcripts_processed : Nat := 0
  transcripts_failed : Nat := 0
deriving DecidableEq

/-! ## Stage 1 — `ingest_and_risk_score`

The `RiskScoringCrew().crew().kickoff(...)` call together with the
`result.pydantic` / `_parse_json_safe(result.raw)` extraction is abstracted
as a per-transcript oracle outcome: the call raised, or nothing parsable came
back (the source then raises `ValueError` into the same handler), or a
record with the optional fields the source reads with `.get` was obtained. -/

/-- The fields stage 1 reads from a parsed risk-scoring result. -/
structure RiskParsed where
  interaction_id : Option String
  risk_score : Option ℚ
  risk_factors : Option (List String)
  priority_for_review : Option String
deriving DecidableEq

/-- Oracle outcome of one risk-scoring service invocation. -/
inductive RiskOutcome
  | raised
  | unparsable
  | parsed (p : RiskParsed)
deriving DecidableEq

/-- The `RiskScore` built from a parsed result, with the source's defaults. -/
def riskScoreOf (t : InteractionTranscript) (p : RiskParsed) : RiskScore :=
  { interaction_id := p.interaction_id.getD t.interaction_id,
    risk_score := p.risk_score.getD (1/2),
    risk_factors := p.risk_factors.getD [],
    priority_for_review := p.priority_for_review.getD "medium" }

/-- The default `RiskScore` synthesized on failure. -/
def defaultRiskScore (t : InteractionTranscript) : RiskScore :=
  { interaction_id := t.interaction_id, risk_score := 1/2,
    risk_factors := ["error_during_scoring"], priority_for_review := "medium" }

/-- The stage-1 failure error message (the appended exception text is
abstracted away). -/
def riskFailMsg (t : InteractionTranscript) : String :=
  "Failed to risk-score " ++ t.interaction_id

/-- The `except` branch of the stage-1 loop body. -/
def stage1Fail (s : QAAuditorState) (t : InteractionTranscript) : QAAuditorState :=
  { s with errors := s.errors ++ [riskFailMsg t],
           transcripts_failed := s.transcripts_failed + 1,
           risk_scores := s.risk_scores ++ [defaultRiskScore t] }

/-- One iteration of the stage-1 loop.  A parsed record whose (defaulted)
risk score violates the pydantic `[0, 1]` bound raises during `RiskScore`
construction and lands in the same `except` branch. -/
def stage1Step (s : QAAuditorState) (t : InteractionTranscript) (o : RiskOutcome) :
    QAAuditorState :=
  match o with
  | .parsed p =>
    if 0 ≤ p.risk_score.getD (1/2) ∧ p.risk_score.getD (1/2) ≤ 1 then
      { s with risk_scores := s.risk_scores ++ [riskScoreOf t p],
               transcripts_processed := s.transcripts_processed + 1 }
    else stage1Fail s t
  | _ => stage1Fail s t

/-- The stage-1 loop over the transcripts, one oracle outcome per item. -/
def stage1Loop (s : QAAuditorState) : List (InteractionTranscript × RiskOutcome) →
    QAAuditorState
  | [] => s
  | x :: rest => stage1Loop (stage1Step s x.1 x.2) rest

/-- The comparison under `risk_scores.sort(key=lambda r: r.risk_score,
reverse=True)`: a stable sort into non-increasing risk-score order. -/
def riskDescLE (a b : RiskScore) : Bool := decide (b.risk_score ≤ a.risk_score)

/-- Embedding of `QAAuditorFlow.ingest_and_risk_score` (after the
initial-state seeding, which only copies caller-supplied fields into the
state before the stage body runs). -/
def ingestAndRiskScore (os : List RiskOutcome) (s : QAAuditorState) : QAAuditorState :=
  if s.raw_transcripts = [] then
    { s with errors := s.errors ++ ["No transcripts provided for analysis"],
             processing_status := "failed_no_input" }
  else
    let s1 := stage1Loop s (s.raw_transcripts.zip os)
    { s1 with risk_scores := s1.risk_scores.mergeSort riskDescLE }

/-! ## Stage 2 — `deep_qa_analysis` -/

/-- The fields stage 2 reads from a parsed QA-analysis result. -/
structure QAParsed where
  interaction_id : Option String
  agent_id : Option String
  compliance_score : Option ℚ
  empathy_score : Option ℚ
  resolution_score : Option ℚ
  process_adherence_score : Option ℚ
  overall_score : Option ℚ
  compliance_issues : Option (List String)
  strengths : Option (List String)
  improvement_areas : Option (List String)
  compliance_severity : Option String
deriving DecidableEq

/-- Oracle outcome of one QA-analysis service invocation. -/
inductive QAOutcome
  | raised
  | unparsable
  | parsed (p : QAParsed)
deriving DecidableEq

/-- Python's `ComplianceSeverity(sev_str)` with the `except ValueError`
fallback to `NONE`; the argument has already been lowercased. -/
def severityOfString (s : String) : ComplianceSeverity :=
  if s = "critical" then .critical
  else if s = "major" then .major
  else if s = "minor" then .minor
  else .severityNone

/-- The default pass evaluation synthesized for `priority_for_review ==
"low"`. -/
def lowPriorityEval (risk : RiskScore) (t : InteractionTranscript) : QAEvaluation :=
  { interaction_id := risk.interaction_id, agent_id := t.agent_id,
    compliance_score := 85, empathy_score := 75, resolution_score := 80,
    process_adherence_score := 80, overall_score := 80, compliance_issues := [],
    strengths := ["Low risk — passed automated screening"], improvement_areas := [],
    compliance_severity := .severityNone }

/-- The default evaluation synthesized when QA analysis fails. -/
def failedEval (risk : RiskScore) (t : InteractionTranscript) : QAEvaluation :=
  { interaction_id := risk.interaction_id, agent_id := t.agent_id,
    compliance_score := 50, empathy_score := 50, resolution_score := 50,
    process_adherence_score := 50, overall_score := 50,
    compliance_issues := ["evaluation_failed"], strengths := [],
    improvement_areas := ["Unable to evaluate — review manually"],
    compliance_severity := .severityNone }

/-- The `QAEvaluation` built from a parsed result, with the source's
defaults (`sev_str = str(parsed.get("compliance_severity", "none")).lower()`). -/
def qaEvalOf (t : InteractionTranscript) (p : QAParsed) : QAEvaluation :=
  { interaction_id := p.interaction_id.getD t.interaction_id,
    agent_id := p.agent_id.getD t.agent_id,
    compliance_score := p.compliance_score.getD 50,
    empathy_score := p.empathy_score.getD 50,
    resolution_score := p.resolution_score.getD 50,
    process_adherence_score := p.process_adherence_score.getD 50,
    overall_score := p.overall_score.getD 50,
    compliance_issues := p.compliance_issues.getD [],
    strengths := p.strengths.getD [],
    improvement_areas := p.improvement_areas.getD [],
    compliance_severity := severityOfString (pyLower (p.compliance_severity.getD "none")) }

/-- The pydantic `[0, 100]` bounds on the five scores. -/
def qaEvalInRange (e : QAEvaluation) : Prop :=
  (0 ≤ e.compliance_score ∧ e.compliance_score ≤ 100) ∧
  (0 ≤ e.empathy_score ∧ e.empathy_score ≤ 100) ∧
  (0 ≤ e.resolution_score ∧ e.resolution_score ≤ 100) ∧
  (0 ≤ e.process_adherence_score ∧ e.process_adherence_score ≤ 100) ∧
  (0 ≤ e.overall_score ∧ e.overall_score ≤ 100)

instance (e : QAEvaluation) : Decidable (qaEvalInRange e) := by
  unfold qaEvalInRange; infer_instance

/-- Python's `{t.interaction_id: t for t in raw_transcripts}` followed by
`.get(iid)`: on duplicate ids the last transcript wins. -/
def transcriptMap (ts : List InteractionTranscript) (iid : String) :
    Option InteractionTranscript :=
  ts.reverse.find? (fun t => t.interaction_id = iid)

/-- The `except` branch of the stage-2 loop body. -/
def stage2Fail (s : QAAuditorState) (risk : RiskScore) (t : InteractionTranscript) :
    QAAuditorState :=
  { s with errors := s.errors ++ ["Failed QA analysis for " ++ risk.interaction_id],
           qa_evaluations := s.qa_evaluations ++ [failedEval risk t] }

/-- One iteration of the stage-2 loop. -/
def stage2Step (s : QAAuditorState) (risk : RiskScore) (o : QAOutcome) : QAAuditorState :=
  match transcriptMap s.raw_transcripts risk.interaction_id with
  | none =>
    { s with errors := s.errors ++
        ["Transcript " ++ risk.interaction_id ++ " not found for QA analysis"] }
  | some t =>
    if risk.priority_for_review = "low" then
      { s with qa_evaluations := s.qa_evaluations ++ [lowPriorityEval risk t] }
    else
      match o with
      | .parsed p =>
        let e := qaEvalOf t p
        if qaEvalInRange e then { s with qa_evaluations := s.qa_evaluations ++ [e] }
        else stage2Fail s risk t
      | _ => stage2Fail s risk t

/-- The stage-2 loop over the (sorted) risk scores. -/
def stage2Loop (s : QAAuditorState) : List (RiskScore × QAOutcome) → QAAuditorState
  | [] => s
  | x :: rest => stage2Loop (stage2Step s x.1 x.2) rest

/-- The `average_scores` dict computed after the stage-2 loop. -/
def avgScores (evals : List QAEvaluation) : List (String × ℚ) :=
  let n : ℚ := evals.length
  [("compliance", pyRound1 ((evals.map (fun e => e.compliance_score)).sum / n)),
   ("empathy", pyRound1 ((evals.map (fun e => e.empathy_score)).sum / n)),
   ("resolution", pyRound1 ((evals.map (fun e => e.resolution_score)).sum / n)),
   ("process_adherence",
     pyRound1 ((evals.map (fun e => e.process_adherence_score)).sum / n)),
   ("overall", pyRound1 ((evals.map (fun e => e.overall_score)).sum / n))]

/-- Embedding of `QAAuditorFlow.deep_qa_analysis`. -/
def deepQAAnalysis (os : List QAOutcome) (s : QAAuditorState) : QAAuditorState :=
  if s.risk_scores = [] then
    { s with errors := s.errors ++ ["No risk scores available for QA analysis"] }
  else
    let s1 := stage2Loop s (s.risk_scores.zip os)
    if s1.qa_evaluations = [] then s1
    else { s1 with average_scores := avgScores s1.qa_evaluations }

/-! ## Stage 3 — `route_by_compliance` -/

/-- Embedding of `QAAuditorFlow.route_by_compliance`: the updated state and
the emitted branch label. -/
def routeByCompliance (s : QAAuditorState) : QAAuditorState × String :=
  let critical := s.qa_evaluations.filter
    (fun e => e.compliance_severity = ComplianceSeverity.critical)
  if critical.isEmpty then (s, "standard_analysis")
  else
    ({ s with has_critical_violations := true,
              critical_violations := critical.map (fun e =>
                { interaction_id := e.interaction_id, agent_id := e.agent_id,
                  issues := e.compliance_issues }) },
     "compliance_escalation")

/-! ## Stage 4a — `handle_compliance_escalation`

Pure string rendering.  Number rendering inside report text uses the
rational's `toString`, and the horizontal-rule strings are kept as literals
(their exact character counts are immaterial to every claim and abbreviated
here). -/

/-- Rendering of a score inside report text. -/
def qStr (q : ℚ) : String := toString q

/-- The per-violation block of the escalation report, from the 1-based
index, the violation, and the first matching full evaluation. -/
def violationBlock (s : QAAuditorState) (iv : Nat × CriticalViolation) : List String :=
  ["--- Violation #" ++ toString (iv.1 + 1) ++ " ---",
   "  Interaction: " ++ iv.2.interaction_id,
   "  Agent: " ++ iv.2.agent_id,
   "  Issues:"]
  ++ iv.2.issues.map (fun issue => "    • " ++ issue)
  ++ (match s.qa_evaluations.find? (fun e => e.interaction_id = iv.2.interaction_id) with
      | some em =>
        ["  Compliance Score: " ++ qStr em.compliance_score ++ "/100",
         "  Overall Score: " ++ qStr em.overall_score ++ "/100"]
      | none => [])
  ++ [""]

/-- The full escalation report text. -/
def escalationReport (now : String) (s : QAAuditorState) : String :=
  String.intercalate "\n"
    (["═══════════════════════════════════════",
      "       URGENT COMPLIANCE ESCALATION REPORT",
      "═══════════════════════════════════════",
      "Campaign: " ++ s.campaign_name,
      "Period: " ++ s.evaluation_period,
      "Generated: " ++ now,
      "Critical Violations: " ++ toString s.critical_violations.length,
      ""]
     ++ s.critical_violations.enum.flatMap (violationBlock s)
     ++ ["═══════════════════════════════════════",
         "ACTION REQUIRED: Review and remediate within 24 hours.",
         "Affected agents must be pulled from live queues until",
         "compliance retraining is completed.",
         "═══════════════════════════════════════"])

/-- Embedding of `QAAuditorFlow.handle_compliance_escalation`. -/
def handleComplianceEscalation (now : String) (s : QAAuditorState) : QAAuditorState :=
  { s with compliance_escalation_report := escalationReport now s }

/-! ## Stage 5 — `detect_patterns` -/

/-- The fields stage 5 reads from a parsed pattern-analysis result; either
key may be absent. -/
structure PatternParsed where
  insights : Option (List PatternInsight)
  agents_needing_coaching : Option (List String)
deriving DecidableEq

/-- Oracle outcome of the pattern-analysis service invocation: the call (or
the `PatternInsight(**p)` construction) raised, or it returned output that
parsed to a record (`res (some p)`) or to nothing (`res none`, the falsy
`parsed` case, which silently changes no field). -/
inductive PatternOutcome
  | raised
  | res (p : Option PatternParsed)
deriving DecidableEq

/-- Does an evaluation flag its agent under the stage-5 fallback rule? -/
def needsCoachingEval (e : QAEvaluation) : Bool :=
  decide (e.overall_score < 70) ∨ e.compliance_severity = ComplianceSeverity.critical ∨
    e.compliance_severity = ComplianceSeverity.major

/-- The fallback `list(set(...))` of agent ids: agents with at least one
evaluation scoring below 70 overall or of critical/major severity,
deduplicated (Python's set iteration order is not specified; `dedup`
realizes the same set without duplicates). -/
def coachingFallback (evals : List QAEvaluation) : List String :=
  ((evals.filter needsCoachingEval).map (fun e => e.agent_id)).dedup

/-- Embedding of `QAAuditorFlow.detect_patterns`.  The evaluations-summary
text sent to the service is input to the oracle and writes no state. -/
def detectPatterns (o : PatternOutcome) (s : QAAuditorState) : QAAuditorState :=
  if s.qa_evaluations.isEmpty then
    { s with errors := s.errors ++ ["No QA evaluations available for pattern analysis"] }
  else
    match o with
    | .res none => s
    | .res (some p) =>
      let s1 := match p.insights with
        | some ins => { s with pattern_insights := ins }
        | none => s
      match p.agents_needing_coaching with
      | some ag => { s1 with agents_needing_coaching := ag }
      | none => s1
    | .raised =>
      { s with errors := s.errors ++ ["Pattern analysis failed"],
               agents_needing_coaching := coachingFallback s.qa_evaluations }

/-! ## Stage 6 — `generate_coaching_plans` -/

/-- The fields stage 6 reads from a parsed coaching result. -/
structure CoachParsed where
  agent_id : Option String
  agent_name : Option String
  overall_performance : Option String
  key_strengths : Option (List String)
  priority_improvements : Option (List String)
  specific_examples : Option (List String)
  suggested_training : Option (List String)
  follow_up_timeline : Option String
deriving DecidableEq

/-- Oracle outcome of one coaching service invocation; `unparsable` raises
`ValueError` into the handler, which appends an error and synthesizes
nothing. -/
inductive CoachOutcome
  | raised
  | unparsable
  | parsed (p : CoachParsed)
deriving DecidableEq

/-- Python's `{t.agent_id: t.agent_name for t in raw_transcripts}` followed
by `.get(agent_id, agent_id)`: last transcript wins per id. -/
def agentNameFor (ts : List InteractionTranscript) (aid : String) : String :=
  match ts.reverse.find? (fun t => t.agent_id = aid) with
  | some t => t.agent_name
  | none => aid

/-- The `CoachingPlan` built from a parsed result, with the source's
defaults. -/
def planOf (aid name : String) (p : CoachParsed) : CoachingPlan :=
  { agent_id := p.agent_id.getD aid, agent_name := p.agent_name.getD name,
    overall_performance := p.overall_performance.getD "below",
    key_strengths := p.key_strengths.getD [],
    priority_improvements := p.priority_improvements.getD [],
    specific_examples := p.specific_examples.getD [],
    suggested_training := p.suggested_training.getD [],
    follow_up_timeline := p.follow_up_timeline.getD "2 weeks" }

/-- One iteration of the stage-6 loop (the rendered evaluation/pattern text
blocks are service inputs and write no state). -/
def coachStep (s : QAAuditorState) (aid : String) (o : CoachOutcome) : QAAuditorState :=
  match o with
  | .parsed p =>
    { s with coaching_plans :=
        s.coaching_plans ++ [planOf aid (agentNameFor s.raw_transcripts aid) p] }
  | _ => { s with errors := s.errors ++ ["Failed coaching plan for " ++ aid] }

/-- The stage-6 loop over the flagged agents. -/
def stage6Loop (s : QAAuditorState) : List (String × CoachOutcome) → QAAuditorState
  | [] => s
  | x :: rest => stage6Loop (coachStep s x.1 x.2) rest

/-- Embedding of `QAAuditorFlow.generate_coaching_plans`. -/
def generateCoachingPlans (os : List CoachOutcome) (s : QAAuditorState) : QAAuditorState :=
  if s.agents_needing_coaching.isEmpty then s
  else stage6Loop s (s.agents_needing_coaching.zip os)

/-! ## Stage 7 — `compile_final_report` -/

/-- Python's `avg.get(key, 'N/A')` rendering inside the summary. -/
def avgGet (avg : List (String × ℚ)) (k : String) : String :=
  match avg.lookup k with
  | some v => qStr v
  | none => "N/A"

/-- The executive-summary text. -/
def executiveSummary (now : String) (s : QAAuditorState) : String :=
  let critical_count := s.critical_violations.length
  let major_count := (s.qa_evaluations.filter
    (fun e => e.compliance_severity = ComplianceSeverity.major)).length
  String.intercalate "\n"
    (["╔══════════════════════════════════════════╗",
      "║           QA AUDIT — EXECUTIVE SUMMARY                  ║",
      "╚══════════════════════════════════════════╝",
      "",
      "Campaign: " ++ s.campaign_name,
      "Period: " ++ s.evaluation_period,
      "Report Generated: " ++ now,
      "",
      "── OVERVIEW ──────────────────────────",
      "  Transcripts Analyzed: " ++ toString s.raw_transcripts.length,
      "  Successfully Processed: " ++ toString s.transcripts_processed,
      "  Failed: " ++ toString s.transcripts_failed,
      "",
      "── AVERAGE SCORES ────────────────────",
      "  Overall:            " ++ avgGet s.average_scores "overall",
      "  Compliance:         " ++ avgGet s.average_scores "compliance",
      "  Empathy:            " ++ avgGet s.average_scores "empathy",
      "  Resolution:         " ++ avgGet s.average_scores "resolution",
      "  Process Adherence:  " ++ avgGet s.average_scores "process_adherence",
      "",
      "── COMPLIANCE ────────────────────────",
      "  Critical Violations: " ++ toString critical_count,
      "  Major Violations: " ++ toString major_count,
      "  Escalation Required: " ++ (if s.has_critical_violations then "YES" else "No"),
      "",
      "── PATTERNS & COACHING ───────────────",
      "  Patterns Identified: " ++ toString s.pattern_insights.length,
      "  Agents Requiring Coaching: " ++ toString s.coaching_plans.length,
      ""]
     ++ (if s.pattern_insights.isEmpty then []
         else ["── KEY PATTERNS ──────────────────────"]
           ++ (s.pattern_insights.take 5).map (fun p =>
                "  [" ++ p.pattern_type.toUpper ++ "] " ++ p.description)
           ++ [""])
     ++ (if s.errors.isEmpty then []
         else ["── ERRORS ────────────────────────────"]
           ++ s.errors.map (fun err => "  ⚠ " ++ err)
           ++ [""]))

/-- The per-evaluation detail block. -/
def evalDetailBlock (ev : QAEvaluation) : List String :=
  ["\n  --- " ++ ev.interaction_id ++ " (Agent: " ++ ev.agent_id ++ ") ---",
   "  Compliance: " ++ qStr ev.compliance_score ++ " | Empathy: " ++ qStr ev.empathy_score
     ++ " | Resolution: " ++ qStr ev.resolution_score ++ " | Process: "
     ++ qStr ev.process_adherence_score,
   "  Overall: " ++ qStr ev.overall_score ++ " | Severity: " ++ ev.compliance_severity.value]
  ++ (if ev.compliance_issues.isEmpty then []
      else ["  Issues: " ++ String.intercalate ", " ev.compliance_issues])
  ++ (if ev.strengths.isEmpty then []
      else ["  Strengths: " ++ String.intercalate ", " ev.strengths])
  ++ (if ev.improvement_areas.isEmpty then []
      else ["  Improve: " ++ String.intercalate ", " ev.improvement_areas])

/-- The per-coaching-plan detail block. -/
def coachingDetailBlock (cp : CoachingPlan) : List String :=
  ["\n  --- " ++ cp.agent_name ++ " (" ++ cp.agent_id ++ ") ---",
   "  Performance: " ++ cp.overall_performance,
   "  Follow-up: " ++ cp.follow_up_timeline,
   "  Strengths: " ++ String.intercalate ", " (cp.key_strengths.take 3),
   "  Priorities: " ++ String.intercalate ", " (cp.priority_improvements.take 3),
   "  Training: " ++ String.intercalate ", " (cp.suggested_training.take 3)]

/-- The detailed-report text (embeds the executive summary). -/
def detailedReport (summary : String) (s : QAAuditorState) : String :=
  String.intercalate "\n"
    ([summary, "",
      "═══ RISK SCORES ═══════════════════════"]
     ++ s.risk_scores.map (fun rs =>
          "  " ++ rs.interaction_id ++ ": score=" ++ qStr rs.risk_score
            ++ " priority=" ++ rs.priority_for_review
            ++ " factors=" ++ String.intercalate ", " (rs.risk_factors.take 3))
     ++ ["",
         "═══ QA EVALUATIONS ════════════════════"]
     ++ s.qa_evaluations.flatMap evalDetailBlock
     ++ [""]
     ++ (if s.coaching_plans.isEmpty then []
         else ["═══ COACHING PLANS ════════════════════"]
           ++ s.coaching_plans.flatMap coachingDetailBlock))

/-- Embedding of `QAAuditorFlow.compile_final_report`: renders both reports
and sets `processing_status = "complete"` unconditionally. -/
def compileFinalReport (now : String) (s : QAAuditorState) : QAAuditorState :=
  let summary := executiveSummary now s
  { s with executive_summary := summary,
           detailed_qa_report := detailedReport summary s,
           processing_status := "complete" }

/-! ## The full flow

The CrewAI decorators fix the topology: `@start ingest_and_risk_score` →
`@listen deep_qa_analysis` → `@router route_by_compliance` emitting
`compliance_escalation` (through `handle_compliance_escalation`) or
`standard_analysis` (skipping it) → the `or_` join `detect_patterns` →
`generate_coaching_plans` → `compile_final_report`. -/

/-- One full run of `QAAuditorFlow`, with the service-call oracles and the
two report timestamps supplied explicitly. -/
def runFlow (ros : List RiskOutcome) (qos : List QAOutcome) (po : PatternOutcome)
    (cos : List CoachOutcome) (escTime finalTime : String) (s0 : QAAuditorState) :
    QAAuditorState :=
  let s1 := ingestAndRiskScore ros s0
  let s2 := deepQAAnalysis qos s1
  let s3 := (routeByCompliance s2).1
  let label := (routeByCompliance s2).2
  let s4 := if label = "compliance_escalation" then handleComplianceEscalation escTime s3
            else s3
  let s5 := detectPatterns po s4
  let s6 := generateCoachingPlans cos s5
  compileFinalReport finalTime s6

/-! ## Concrete sample data for witnesses -/

/-- A sample transcript. -/
def sampleTranscript : InteractionTranscript :=
  { interaction_id := "T1", agent_id := "A1", agent_name := "Ann",
    channel := "voice", timestamp := "2024-01-01", duration_seconds := none,
    transcript_text := "hi", customer_issue := "", resolution_status := "" }

/-- A second sample transcript. -/
def sampleTranscript2 : InteractionTranscript :=
  { interaction_id := "T2", agent_id := "A2", agent_name := "Bob",
    channel := "chat", timestamp := "2024-01-02", duration_seconds := some 60,
    transcript_text := "hello", customer_issue := "", resolution_status := "" }

/-- A sample evaluation with a critical severity and a failing score. -/
def sampleEvalCritical : QAEvaluation :=
  { interaction_id := "T1", agent_id := "A1", compliance_score := 20,
    empathy_score := 50, resolution_score := 50, process_adherence_score := 50,
    overall_score := 40, compliance_issues := ["card number read back"],
    strengths := [], improvement_areas := [],
    compliance_severity := ComplianceSeverity.critical }

/-- A sample clean evaluation. -/
def sampleEvalClean : QAEvaluation :=
  { interaction_id := "T2", agent_id := "A2", compliance_score := 85,
    empathy_score := 75, resolution_score := 80, process_adherence_score := 80,
    overall_score := 80, compliance_issues := [], strengths := [],
    improvement_areas := [], compliance_severity := ComplianceSeverity.severityNone }

/-- A sample state holding both sample transcripts. -/
def sampleState : QAAuditorState :=
  { raw_transcripts := [sampleTranscript, sampleTranscript2] }

/-- A sample state holding both sample evaluations. -/
def sampleEvalState : QAAuditorState :=
  { qa_evaluations := [sampleEvalCritical, sampleEvalClean] }

/-- A parsed risk result with every optional field absent. -/
def emptyRiskParsed : RiskParsed :=
  { interaction_id := none, risk_score := none, risk_factors := none,
    priority_for_review := none }

/-! ## Theorems -/

/-- C1 (counterexample): `QAScorecardCalculator(50,50,50,50,"standard")` yields
overall score `50.0`, but its band is `critical`, not `needs_improvement` as
the claim asserts. -/
theorem scorecard_50_band_not_needs_improvement :
    (scorecardRun 50 50 50 50 "standard").overall_score = 50 ∧
    (scorecardRun 50 50 50 50 "standard").performance_band = "critical" ∧
    (scorecardRun 50 50 50 50 "standard").performance_band ≠ "needs_improvement" := by
  have h : scorecardRun 50 50 50 50 "standard" =
      { overall_score := 50, performance_band := "critical", weight_profile_used := "standard",
        weighted_compliance := 15, weighted_empathy := 25/2,
        weighted_resolution := 25/2, weighted_process_adherence := 10 } := by
    simp only [scorecardRun, lookupProfile, WEIGHT_PROFILES, standardProfile, List.lookup,
      BEq.beq, String.decEq, pyRound2, pyRoundInt]
    norm_num
  rw [h]
  refine ⟨rfl, rfl, by decide⟩

/-- C1 (amended): the Scorecard Calculator assigns the performance band by the
stated thresholds on the overall weighted score; `(90,90,90,90,"standard")`
yields overall `90.0` with band `exceeds_expectations`, and
`(50,50,50,50,"standard")` yields overall `50.0` — whose band, per those same
thresholds, is `critical` (not `needs_improvement`). -/
theorem scorecard_band_thresholds :
    (∀ c e r p profile, (scorecardRun c e r p profile).performance_band
        = bandPerSpec (scorecardRun c e r p profile).overall_score) ∧
    (scorecardRun 90 90 90 90 "standard").overall_score = 90 ∧
    (scorecardRun 90 90 90 90 "standard").performance_band = "exceeds_expectations" ∧
    (scorecardRun 50 50 50 50 "standard").overall_score = 50 ∧
    (scorecardRun 50 50 50 50 "standard").performance_band = "critical" := by
  have h90 : scorecardRun 90 90 90 90 "standard" =
      { overall_score := 90, performance_band := "exceeds_expectations",
        weight_profile_used := "standard",
        weighted_compliance := 27, weighted_empathy := 45/2,
        weighted_resolution := 45/2, weighted_process_adherence := 18 } := by
    simp only [scorecardRun, lookupProfile, WEIGHT_PROFILES, standardProfile, List.lookup,
      BEq.beq, String.decEq, pyRound2, pyRoundInt]
    norm_num
  have h50 : scorecardRun 50 50 50 50 "standard" =
      { overall_score := 50, performance_band := "critical", weight_profile_used := "standard",
        weighted_compliance := 15, weighted_empathy := 25/2,
        weighted_resolution := 25/2, weighted_process_adherence := 10 } := by
    simp only [scorecardRun, lookupProfile, WEIGHT_PROFILES, standardProfile, List.lookup,
      BEq.beq, String.decEq, pyRound2, pyRoundInt]
    norm_num
  refine ⟨fun c e r p profile => ?_, by rw [h90], by rw [h90], by rw [h50], by rw [h50]⟩
  simp only [scorecardRun, bandPerSpec]

/-- C2 (counterexample): the transcript `"call may be recorded"` contains a
disclosure phrase and no forbidden phrase, yet its `general` compliance rate
is `75.0`, not `100.0` (the `identity_verification` must-contain check
fails). -/
theorem compliance_disclosure_only_rate_75 :
    callRecordingPhrases.any (fun p => strContains (pyLower "call may be recorded") p)
      = true ∧
    generalForbiddenPhrases.all (fun p => !strContains (pyLower "call may be recorded") p)
      = true ∧
    (complianceRun "call may be recorded" "general").compliance_rate = 75 ∧
    (complianceRun "call may be recorded" "general").compliance_rate ≠ 100 := by
  have htot : (complianceRun "call may be recorded" "general").total_checks = 4 := by decide
  have hpass : (complianceRun "call may be recorded" "general").passed = 3 := by decide
  have hrate : (complianceRun "call may be recorded" "general").compliance_rate =
      if 0 < (complianceRun "call may be recorded" "general").total_checks then
        pyRound1 (((complianceRun "call may be recorded" "general").passed : ℚ)
          / ((complianceRun "call may be recorded" "general").total_checks : ℚ) * 100)
      else 100 := rfl
  rw [htot, hpass] at hrate
  have h75 : (complianceRun "call may be recorded" "general").compliance_rate = 75 := by
    rw [hrate]; norm_num [pyRound1, pyRoundInt]
  exact ⟨by decide, by decide, h75, by rw [h75]; norm_num⟩

/-- C2 (amended): for requirement set `general`, a transcript containing a
disclosure phrase, an identity-verification phrase, and no forbidden phrase
has compliance rate `100.0`; one containing no must-contain phrase of either
category and no forbidden phrase has rate `50.0`; and for every input the
rate equals `100 × passed / total_checks` rounded to one decimal, or `100.0`
with zero checks. -/
theorem compliance_general_rates :
    (∀ text,
      callRecordingPhrases.any (fun p => strContains (pyLower text) p) = true →
      identityVerificationPhrases.any (fun p => strContains (pyLower text) p) = true →
      generalForbiddenPhrases.all (fun p => !strContains (pyLower text) p) = true →
      (complianceRun text "general").compliance_rate = 100) ∧
    (∀ text,
      callRecordingPhrases.all (fun p => !strContains (pyLower text) p) = true →
      identityVerificationPhrases.all (fun p => !strContains (pyLower text) p) = true →
      generalForbiddenPhrases.all (fun p => !strContains (pyLower text) p) = true →
      (complianceRun text "general").compliance_rate = 50) ∧
    (∀ text rset,
      (complianceRun text rset).compliance_rate =
        if 0 < (complianceRun text rset).total_checks then
          pyRound1 (((complianceRun text rset).passed : ℚ)
            / ((complianceRun text rset).total_checks : ℚ) * 100)
        else 100) := by
  refine ⟨fun text h1 h2 h3 => ?_, fun text h1 h2 h3 => ?_, fun text rset => rfl⟩
  · simp only [generalForbiddenPhrases, List.all_cons, List.all_nil, Bool.and_eq_true,
      Bool.not_eq_true', and_true] at h3
    obtain ⟨f1, f2, f3, f4, f5, f6⟩ := h3
    simp only [callRecordingPhrases] at h1
    simp only [identityVerificationPhrases] at h2
    simp [complianceRun, lookupReqSet, REQUIREMENT_SETS, generalSet, List.lookup,
      h1, h2, f1, f2, f3, f4, f5, f6, List.filter]
    norm_num [pyRound1, pyRoundInt]
  · simp only [generalForbiddenPhrases, List.all_cons, List.all_nil, Bool.and_eq_true,
      Bool.not_eq_true', and_true] at h3
    obtain ⟨f1, f2, f3, f4, f5, f6⟩ := h3
    simp only [callRecordingPhrases, List.all_cons, List.all_nil, Bool.and_eq_true,
      Bool.not_eq_true', and_true] at h1
    obtain ⟨a1, a2, a3, a4, a5⟩ := h1
    simp only [identityVerificationPhrases, List.all_cons, List.all_nil, Bool.and_eq_true,
      Bool.not_eq_true', and_true] at h2
    obtain ⟨b1, b2, b3, b4, b5⟩ := h2
    simp [complianceRun, lookupReqSet, REQUIREMENT_SETS, generalSet, List.lookup,
      a1, a2, a3, a4, a5, b1, b2, b3, b4, b5, f1, f2, f3, f4, f5, f6, List.filter]
    norm_num [pyRound1, pyRoundInt]

/-- Witness for `compliance_general_rates` at two concrete transcripts. -/
theorem compliance_general_rates_witness :
    (complianceRun "call may be recorded, can I confirm your name?" "general").compliance_rate
      = 100 ∧
    (complianceRun "hello there" "general").compliance_rate = 50 :=
  ⟨compliance_general_rates.1 "call may be recorded, can I confirm your name?"
      (by decide) (by decide) (by decide),
   compliance_general_rates.2.1 "hello there" (by decide) (by decide) (by decide)⟩

/-- A category scan finds nothing when no pattern of the table occurs in the
text. -/
theorem scanTable_eq_nil (ty sev : String) (tbl : List (String × List String)) (tl : String)
    (h : ∀ p ∈ tbl.flatMap Prod.snd, strContains tl p = false) :
    scanTable ty sev tbl tl = [] := by
  induction tbl with
  | nil => rfl
  | cons cp rest ih =>
    simp only [scanTable, List.flatMap_cons, List.append_eq_nil]
    constructor
    · have h1 : ∀ p ∈ cp.2, strContains tl p = false := fun p hp =>
        h p (List.mem_flatMap.mpr ⟨cp, List.mem_cons_self cp rest, hp⟩)
      rw [List.filter_eq_nil_iff.mpr (fun a ha => by simp [h1 a ha])]
      rfl
    · exact ih fun p hp =>
        h p (List.mem_flatMap.mpr (by
          obtain ⟨q, hq, hpq⟩ := List.mem_flatMap.mp hp
          exact ⟨q, List.mem_cons_of_mem cp hq, hpq⟩))

/-- C7: the scanner's risk score is `min(1, max_severity_weight +
0.05 × (flag_count − 1))` rounded to two decimals when flags exist and `0.1`
otherwise; a voice-channel transcript with no disclosure phrase and no other
trigger substring yields exactly the one critical `missing_disclosure` flag
with risk score `1.00`, while the same text on channel `email` yields no
flags and risk score `0.10`. -/
theorem red_flag_absence_trigger (text : String)
    (h1 : disclosurePhrases.all (fun p => !strContains (pyLower text) p) = true)
    (h2 : scannedTriggerPhrases.all (fun p => !strContains (pyLower text) p) = true) :
    (∀ t c,
      ((kwScanRun t c).flags ≠ [] →
        (kwScanRun t c).risk_score =
          pyRound2 (min 1 (maxSeverityWeight (kwScanRun t c).flags
            + (((kwScanRun t c).flags.length : ℚ) - 1) * (5/100)))) ∧
      ((kwScanRun t c).flags = [] → (kwScanRun t c).risk_score = pyRound2 (1/10))) ∧
    (kwScanRun text "voice").flags = [missingDisclosureFlag] ∧
    (kwScanRun text "voice").flags_found = 1 ∧
    (kwScanRun text "voice").risk_score = 1 ∧
    (kwScanRun text "email").flags = [] ∧
    (kwScanRun text "email").flags_found = 0 ∧
    (kwScanRun text "email").risk_score = 1/10 := by
  have hdisc : disclosurePhrases.any (fun p => strContains (pyLower text) p) = false := by
    simp only [List.all_eq_true, Bool.not_eq_true'] at h1
    simp only [List.any_eq_false]
    exact fun p hp => by simp [h1 p hp]
  have hno : ∀ p ∈ scannedTriggerPhrases, strContains (pyLower text) p = false := by
    simp only [List.all_eq_true, Bool.not_eq_true'] at h2
    exact h2
  have hc : scanTable "compliance" "critical"
      (compliancePatterns.filter (fun cp => cp.1 ≠ "missing_disclosure"))
      (pyLower text) = [] :=
    scanTable_eq_nil _ _ _ _ fun p hp =>
      hno p (by simp only [scannedTriggerPhrases, List.mem_append]; exact Or.inl (Or.inl hp))
  have hcm : scanTable "complaint" "high" complaintPatterns (pyLower text) = [] :=
    scanTable_eq_nil _ _ _ _ fun p hp =>
      hno p (by simp only [scannedTriggerPhrases, List.mem_append]; exact Or.inl (Or.inr hp))
  have hpr : scanTable "process" "medium" processPatterns (pyLower text) = [] :=
    scanTable_eq_nil _ _ _ _ fun p hp =>
      hno p (by simp only [scannedTriggerPhrases, List.mem_append]; exact Or.inr hp)
  simp only [ne_eq, decide_not] at hc
  have hvoice : (kwScanRun text "voice").flags = [missingDisclosureFlag] := by
    simp [kwScanRun, hdisc, hc, hcm, hpr]
  have hemail : (kwScanRun text "email").flags = [] := by
    simp [kwScanRun, hdisc, hc, hcm, hpr]
  refine ⟨fun t c => ⟨fun hne => ?_, fun hnil => ?_⟩, hvoice, ?_, ?_, hemail, ?_, ?_⟩
  · have hr : (kwScanRun t c).risk_score =
        pyRound2 (if (kwScanRun t c).flags.length ≠ 0 then
          min 1 (maxSeverityWeight (kwScanRun t c).flags
            + (((kwScanRun t c).flags.length : ℚ) - 1) * (5/100))
        else 1/10) := rfl
    rw [hr, if_pos (by simpa [List.length_eq_zero] using hne)]
  · have hr : (kwScanRun t c).risk_score =
        pyRound2 (if (kwScanRun t c).flags.length ≠ 0 then
          min 1 (maxSeverityWeight (kwScanRun t c).flags
            + (((kwScanRun t c).flags.length : ℚ) - 1) * (5/100))
        else 1/10) := rfl
    rw [hr, hnil]
    simp
  · have hr : (kwScanRun text "voice").flags_found = (kwScanRun text "voice").flags.length :=
      rfl
    rw [hr, hvoice]
    rfl
  · have hr : (kwScanRun text "voice").risk_score =
        pyRound2 (if (kwScanRun text "voice").flags.length ≠ 0 then
          min 1 (maxSeverityWeight (kwScanRun text "voice").flags
            + (((kwScanRun text "voice").flags.length : ℚ) - 1) * (5/100))
        else 1/10) := rfl
    rw [hr, hvoice]
    norm_num [maxSeverityWeight, severityWeight, missingDisclosureFlag, pyRound2, pyRoundInt]
  · have hr : (kwScanRun text "email").flags_found = (kwScanRun text "email").flags.length :=
      rfl
    rw [hr, hemail]
    rfl
  · have hr : (kwScanRun text "email").risk_score =
        pyRound2 (if (kwScanRun text "email").flags.length ≠ 0 then
          min 1 (maxSeverityWeight (kwScanRun text "email").flags
            + (((kwScanRun text "email").flags.length : ℚ) - 1) * (5/100))
        else 1/10) := rfl
    rw [hr, hemail]
    norm_num [pyRound2, pyRoundInt]

/-- Witness for `red_flag_absence_trigger` at the transcript
`"hello there"`. -/
theorem red_flag_absence_trigger_witness :
    (kwScanRun "hello there" "voice").flags = [missingDisclosureFlag] ∧
    (kwScanRun "hello there" "voice").risk_score = 1 ∧
    (kwScanRun "hello there" "email").flags = [] ∧
    (kwScanRun "hello there" "email").risk_score = 1/10 := by
  have h := red_flag_absence_trigger "hello there" (by decide) (by decide)
  exact ⟨h.2.1, h.2.2.2.1, h.2.2.2.2.1, h.2.2.2.2.2.2⟩

/-- C8: the parser tries its four strategies in order with the first success
winning, so raw text whose tagged fence contains parsable content parses to
exactly what the bare content parses to; and when the direct parse and all
three extraction attempts fail, the parser returns the explicit no-result
signal `none` (it is a total function and cannot raise). -/
theorem parser_strategy_order {α : Type} (parse : String → Option α) (raw c : String) (v : α)
    (h0 : parse raw = none) (h1 : extractJsonFence raw = some c) (h2 : parse c = some v) :
    parseJsonSafe parse raw = some v ∧
    parseJsonSafe parse c = some v ∧
    parseJsonSafe parse raw = parseJsonSafe parse c ∧
    (∀ raw2 v2, parse raw2 = some v2 → parseJsonSafe parse raw2 = some v2) ∧
    (∀ raw2, parse raw2 = none → (extractJsonFence raw2).bind parse = none →
      (extractAnyFence raw2).bind parse = none → (extractBraces raw2).bind parse = none →
      parseJsonSafe parse raw2 = none) := by
  have p1 : parseJsonSafe parse raw = some v := by
    simp [parseJsonSafe, h0, h1, h2]
  have p2 : parseJsonSafe parse c = some v := by
    simp [parseJsonSafe, h2]
  refine ⟨p1, p2, by rw [p1, p2], fun raw2 v2 hp => by simp [parseJsonSafe, hp],
    fun raw2 g0 g1 g2 g3 => by simp [parseJsonSafe, g0, g1, g2, g3]⟩

/-- Witness for `parser_strategy_order`: a concrete parse function and a raw
string embedding the parsable block in a tagged fence inside prose. -/
theorem parser_strategy_order_witness :
    parseJsonSafe (fun s => if s = "OBJ" then some 1 else none)
      "prose ```json OBJ ``` more" = some 1 ∧
    parseJsonSafe (fun s => if s = "OBJ" then some 1 else none) "OBJ" = some 1 := by
  have h := parser_strategy_order (fun s => if s = "OBJ" then some 1 else none)
    "prose ```json OBJ ``` more" "OBJ" 1 (by decide) (by decide) (by decide)
  exact ⟨h.1, h.2.1⟩

/-- C3: whenever the risk-scoring invocation for a transcript fails — the
call raised, its output was unparsable, or the parsed (defaulted) score
violates the pydantic range so construction raises — the stage-1 loop body
still appends a `RiskScore` with score `0.5`, factors
`["error_during_scoring"]` and priority `"medium"`, appends an error string,
increments only the failure counter, and leaves the success counter
unchanged. -/
theorem stage1_failure_defaults (s : QAAuditorState) (t : InteractionTranscript)
    (o : RiskOutcome)
    (h : o = .raised ∨ o = .unparsable ∨
      ∃ p, o = .parsed p ∧
        ¬(0 ≤ p.risk_score.getD (1/2) ∧ p.risk_score.getD (1/2) ≤ 1)) :
    (stage1Step s t o).risk_scores = s.risk_scores ++
      [{ interaction_id := t.interaction_id, risk_score := 1/2,
         risk_factors := ["error_during_scoring"], priority_for_review := "medium" }] ∧
    (stage1Step s t o).errors = s.errors ++ [riskFailMsg t] ∧
    (stage1Step s t o).transcripts_failed = s.transcripts_failed + 1 ∧
    (stage1Step s t o).transcripts_processed = s.transcripts_processed := by
  have hfail : stage1Step s t o = stage1Fail s t := by
    rcases h with h | h | ⟨p, rfl, hp⟩
    · subst h; rfl
    · subst h; rfl
    · simp only [stage1Step, if_neg hp]
  rw [hfail]
  exact ⟨rfl, rfl, rfl, rfl⟩

/-- Witness for `stage1_failure_defaults` at a concrete transcript and a
raised service call on the default initial state. -/
theorem stage1_failure_defaults_witness :
    (stage1Step {} sampleTranscript RiskOutcome.raised).risk_scores =
      [{ interaction_id := "T1", risk_score := 1/2,
         risk_factors := ["error_during_scoring"], priority_for_review := "medium" }] ∧
    (stage1Step {} sampleTranscript RiskOutcome.raised).transcripts_failed = 1 := by
  have h := stage1_failure_defaults {} sampleTranscript RiskOutcome.raised (Or.inl rfl)
  exact ⟨h.1, h.2.2.1⟩

/-- Each stage-1 iteration appends exactly one risk score and bumps exactly
one of the two counters. -/
theorem stage1Step_counts (s : QAAuditorState) (t : InteractionTranscript)
    (o : RiskOutcome) :
    (stage1Step s t o).risk_scores.length = s.risk_scores.length + 1 ∧
    (stage1Step s t o).transcripts_processed + (stage1Step s t o).transcripts_failed
      = s.transcripts_processed + s.transcripts_failed + 1 ∧
    (stage1Step s t o).raw_transcripts = s.raw_transcripts := by
  cases o with
  | parsed p =>
    by_cases hp : 0 ≤ p.risk_score.getD (1/2) ∧ p.risk_score.getD (1/2) ≤ 1
    · simp only [stage1Step, if_pos hp]
      refine ⟨by simp, by omega, by simp⟩
    · simp only [stage1Step, if_neg hp, stage1Fail]
      refine ⟨by simp, by omega, by simp⟩
  | raised =>
    simp only [stage1Step, stage1Fail]
    refine ⟨by simp, by omega, by simp⟩
  | unparsable =>
    simp only [stage1Step, stage1Fail]
    refine ⟨by simp, by omega, by simp⟩

/-- The stage-1 loop appends one risk score per item and bumps the two
counters a total of once per item. -/
theorem stage1Loop_counts (pairs : List (InteractionTranscript × RiskOutcome)) :
    ∀ s : QAAuditorState,
      (stage1Loop s pairs).risk_scores.length = s.risk_scores.length + pairs.length ∧
      (stage1Loop s pairs).transcripts_processed + (stage1Loop s pairs).transcripts_failed
        = s.transcripts_processed + s.transcripts_failed + pairs.length := by
  induction pairs with
  | nil => intro s; exact ⟨by simp [stage1Loop], by simp [stage1Loop]⟩
  | cons x rest ih =>
    intro s
    have hstep := stage1Step_counts s x.1 x.2
    have hrec := ih (stage1Step s x.1 x.2)
    simp only [stage1Loop]
    constructor
    · rw [hrec.1, hstep.1]; simp; omega
    · rw [hrec.2, hstep.2.1]; simp; omega

/-- C10: running stage 1 on a state with a non-empty transcript list, no
prior risk scores and zeroed counters yields exactly one risk score per
transcript, and the two counters sum to the number of transcripts. -/
theorem stage1_one_score_per_transcript (s : QAAuditorState) (os : List RiskOutcome)
    (hlen : os.length = s.raw_transcripts.length)
    (h0 : s.risk_scores = []) (h1 : s.transcripts_processed = 0)
    (h2 : s.transcripts_failed = 0) (hne : s.raw_transcripts ≠ []) :
    (ingestAndRiskScore os s).risk_scores.length = s.raw_transcripts.length ∧
    (ingestAndRiskScore os s).transcripts_processed
      + (ingestAndRiskScore os s).transcripts_failed = s.raw_transcripts.length := by
  have hloop := stage1Loop_counts (s.raw_transcripts.zip os) s
  have hzlen : (s.raw_transcripts.zip os).length = s.raw_transcripts.length := by
    simp [List.length_zip, hlen]
  simp only [ingestAndRiskScore, if_neg hne]
  constructor
  · simp only [List.length_mergeSort]
    rw [hloop.1, h0, hzlen]; simp
  · rw [hloop.2, h1, h2, hzlen]; simp

/-- Witness for `stage1_one_score_per_transcript` on a two-transcript state
with one raised and one parsed service outcome. -/
theorem stage1_one_score_per_transcript_witness :
    (ingestAndRiskScore [RiskOutcome.raised, RiskOutcome.parsed emptyRiskParsed]
      sampleState).risk_scores.length = 2 ∧
    (ingestAndRiskScore [RiskOutcome.raised, RiskOutcome.parsed emptyRiskParsed]
      sampleState).transcripts_processed
      + (ingestAndRiskScore [RiskOutcome.raised, RiskOutcome.parsed emptyRiskParsed]
        sampleState).transcripts_failed = 2 := by
  have h := stage1_one_score_per_transcript sampleState
    [RiskOutcome.raised, RiskOutcome.parsed emptyRiskParsed]
    (by decide) (by decide) (by decide) (by decide) (by decide)
  exact ⟨h.1, h.2⟩

/-- Transitivity of the stage-1 sort comparison. -/
theorem riskDescLE_trans (a b c : RiskScore) :
    riskDescLE a b → riskDescLE b c → riskDescLE a c := by
  intro hab hbc
  simp only [riskDescLE, decide_eq_true_eq] at *
  exact le_trans hbc hab

/-- Totality of the stage-1 sort comparison. -/
theorem riskDescLE_total (a b : RiskScore) : riskDescLE a b || riskDescLE b a := by
  simp only [riskDescLE]
  rcases le_total a.risk_score b.risk_score with h | h <;> simp [h]

/-- A list of risk scores all sharing one score value is pairwise ordered
under the sort comparison. -/
theorem pairwise_riskDescLE_of_const (q : ℚ) :
    ∀ l : List RiskScore, (∀ a ∈ l, a.risk_score = q) →
      l.Pairwise (fun a b => riskDescLE a b = true) := by
  intro l
  induction l with
  | nil => intro _; exact List.Pairwise.nil
  | cons x rest ih =>
    intro h
    refine List.Pairwise.cons (fun b hb => ?_) (ih fun a ha => h a (List.mem_cons_of_mem x ha))
    simp only [riskDescLE, decide_eq_true_eq]
    rw [h x (List.mem_cons_self x rest), h b (List.mem_cons_of_mem x hb)]

/-- C4: after stage 1 on a non-empty transcript list, the risk-score
collection is the stable descending sort of the loop's production order:
it is pairwise non-increasing by `risk_score`, and for every score value the
subsequence holding exactly that score is unchanged from production order
(equal scores are never reordered). -/
theorem stage1_sorted_stable (s : QAAuditorState) (os : List RiskOutcome)
    (hne : s.raw_transcripts ≠ []) :
    List.Pairwise (fun a b => b.risk_score ≤ a.risk_score)
      (ingestAndRiskScore os s).risk_scores ∧
    ∀ q : ℚ,
      (ingestAndRiskScore os s).risk_scores.filter (fun r => decide (r.risk_score = q))
        = (stage1Loop s (s.raw_transcripts.zip os)).risk_scores.filter
            (fun r => decide (r.risk_score = q)) := by
  have hout : (ingestAndRiskScore os s).risk_scores
      = (stage1Loop s (s.raw_transcripts.zip os)).risk_scores.mergeSort riskDescLE := by
    simp only [ingestAndRiskScore, if_neg hne]
  rw [hout]
  set l := (stage1Loop s (s.raw_transcripts.zip os)).risk_scores with hl
  constructor
  · have hs := @List.sorted_mergeSort RiskScore riskDescLE riskDescLE_trans riskDescLE_total l
    exact hs.imp fun hab => by
      simpa only [riskDescLE, decide_eq_true_eq] using hab
  · intro q
    set p : RiskScore → Bool := fun r => decide (r.risk_score = q) with hp
    have hmemq : ∀ a ∈ l.filter p, a.risk_score = q := fun a ha => by
      have := List.of_mem_filter ha
      simpa [hp] using this
    have hpw : (l.filter p).Pairwise (fun a b => riskDescLE a b = true) :=
      pairwise_riskDescLE_of_const q (l.filter p) hmemq
    have hsub : List.Sublist (l.filter p) (l.mergeSort riskDescLE) :=
      List.sublist_mergeSort riskDescLE_trans riskDescLE_total hpw (List.filter_sublist l)
    have hsub2 : List.Sublist (l.filter p) ((l.mergeSort riskDescLE).filter p) := by
      have h1 : (l.filter p).filter p = l.filter p := by
        apply List.filter_eq_self.mpr
        intro a ha
        exact List.of_mem_filter ha
      have h2 := hsub.filter p
      rw [h1] at h2
      exact h2
    have hperm : List.Perm ((l.mergeSort riskDescLE).filter p) (l.filter p) :=
      (List.mergeSort_perm l riskDescLE).filter p
    exact (hsub2.eq_of_length hperm.length_eq.symm).symm

/-- Witness for `stage1_sorted_stable` on the two-transcript sample state
with both service calls raising. -/
theorem stage1_sorted_stable_witness :
    List.Pairwise (fun a b => b.risk_score ≤ a.risk_score)
      (ingestAndRiskScore [RiskOutcome.raised, RiskOutcome.raised]
        sampleState).risk_scores ∧
    ∀ q : ℚ,
      (ingestAndRiskScore [RiskOutcome.raised, RiskOutcome.raised]
          sampleState).risk_scores.filter (fun r => decide (r.risk_score = q))
        = (stage1Loop sampleState
            (sampleState.raw_transcripts.zip [RiskOutcome.raised, RiskOutcome.raised])
          ).risk_scores.filter (fun r => decide (r.risk_score = q)) :=
  stage1_sorted_stable sampleState [RiskOutcome.raised, RiskOutcome.raised] (by decide)

/-- C5: on any state reachable at the router (nothing before the router ever
writes `has_critical_violations` or `critical_violations`, so they still hold
their defaults `false` and `[]`), after `route_by_compliance` the flag is
true iff some evaluation has critical severity, the violation list's length
equals the critical-evaluation count, every other field is unchanged, the
escalation branch is chosen iff a critical evaluation exists, and the label
and written values depend only on the evaluation collection (the router reads
nothing else). -/
theorem router_critical_violations (s : QAAuditorState)
    (h1 : s.has_critical_violations = false) (h2 : s.critical_violations = []) :
    ((routeByCompliance s).1.has_critical_violations = true ↔
      ∃ e ∈ s.qa_evaluations, e.compliance_severity = ComplianceSeverity.critical) ∧
    (routeByCompliance s).1.critical_violations.length
      = (s.qa_evaluations.filter
          (fun e => e.compliance_severity = ComplianceSeverity.critical)).length ∧
    (routeByCompliance s).1 = { s with
      has_critical_violations := (routeByCompliance s).1.has_critical_violations,
      critical_violations := (routeByCompliance s).1.critical_violations } ∧
    ((routeByCompliance s).2 = "compliance_escalation" ↔
      ∃ e ∈ s.qa_evaluations, e.compliance_severity = ComplianceSeverity.critical) ∧
    (∀ t : QAAuditorState, t.has_critical_violations = false →
      t.critical_violations = [] → t.qa_evaluations = s.qa_evaluations →
      (routeByCompliance t).2 = (routeByCompliance s).2 ∧
      (routeByCompliance t).1.has_critical_violations
        = (routeByCompliance s).1.has_critical_violations ∧
      (routeByCompliance t).1.critical_violations
        = (routeByCompliance s).1.critical_violations) := by
  by_cases hc : (s.qa_evaluations.filter
      (fun e => e.compliance_severity = ComplianceSeverity.critical)).isEmpty
  · have hnil : s.qa_evaluations.filter
        (fun e => e.compliance_severity = ComplianceSeverity.critical) = [] :=
      List.isEmpty_iff.mp hc
    have hnone : ¬∃ e ∈ s.qa_evaluations,
        e.compliance_severity = ComplianceSeverity.critical := by
      rintro ⟨e, he, hcrit⟩
      have : e ∈ s.qa_evaluations.filter
          (fun e => e.compliance_severity = ComplianceSeverity.critical) :=
        List.mem_filter.mpr ⟨he, by simp [hcrit]⟩
      simp [hnil] at this
    have hroute : routeByCompliance s = (s, "standard_analysis") := by
      simp only [routeByCompliance, hc, if_pos]
    have hgen : ∀ t : QAAuditorState, t.qa_evaluations = s.qa_evaluations →
        routeByCompliance t = (t, "standard_analysis") := by
      intro t ht3
      simp only [routeByCompliance, ht3, hc, if_pos]
    rw [hroute]
    refine ⟨by simp [h1, hnone], by simp [h2, hnil], by simp, by simp [hnone],
      fun t ht1 ht2 ht3 => ?_⟩
    rw [hgen t ht3]
    exact ⟨rfl, by simp [ht1, h1], by simp [ht2, h2]⟩
  · have hne : s.qa_evaluations.filter
        (fun e => e.compliance_severity = ComplianceSeverity.critical) ≠ [] := by
      intro h
      rw [h] at hc
      exact hc rfl
    obtain ⟨e, he⟩ := List.exists_mem_of_ne_nil _ hne
    have hsome : ∃ e ∈ s.qa_evaluations,
        e.compliance_severity = ComplianceSeverity.critical := by
      refine ⟨e, (List.mem_filter.mp he).1, ?_⟩
      have := (List.mem_filter.mp he).2
      simpa using this
    have hroute1 : (routeByCompliance s).1 = { s with
        has_critical_violations := true,
        critical_violations := (s.qa_evaluations.filter
          (fun e => e.compliance_severity = ComplianceSeverity.critical)).map
            (fun e => { interaction_id := e.interaction_id, agent_id := e.agent_id,
                        issues := e.compliance_issues }) } := by
      simp only [routeByCompliance, hc, if_neg, Bool.false_eq_true, if_false]
    have hroute2 : (routeByCompliance s).2 = "compliance_escalation" := by
      simp only [routeByCompliance, hc, if_neg, Bool.false_eq_true, if_false]
    have hgen : ∀ t : QAAuditorState, t.qa_evaluations = s.qa_evaluations →
        (routeByCompliance t).2 = "compliance_escalation" ∧
        (routeByCompliance t).1.has_critical_violations = true ∧
        (routeByCompliance t).1.critical_violations
          = (s.qa_evaluations.filter
              (fun e => e.compliance_severity = ComplianceSeverity.critical)).map
                (fun e => { interaction_id := e.interaction_id, agent_id := e.agent_id,
                            issues := e.compliance_issues }) := by
      intro t ht3
      refine ⟨?_, ?_, ?_⟩ <;>
        simp only [routeByCompliance, ht3, hc, if_neg, Bool.false_eq_true, if_false]
    rw [hroute1, hroute2]
    refine ⟨by simp [hsome], by simp, by simp, by simp [hsome],
      fun t ht1 ht2 ht3 => ?_⟩
    obtain ⟨g1, g2, g3⟩ := hgen t ht3
    exact ⟨by rw [g1], by rw [g2], by rw [g3]⟩

/-- Witness for `router_critical_violations` on the sample state holding one
critical and one clean evaluation. -/
theorem router_critical_violations_witness :
    ((routeByCompliance sampleEvalState).1.has_critical_violations = true ↔
      ∃ e ∈ sampleEvalState.qa_evaluations,
        e.compliance_severity = ComplianceSeverity.critical) ∧
    (routeByCompliance sampleEvalState).1.critical_violations.length
      = (sampleEvalState.qa_evaluations.filter
          (fun e => e.compliance_severity = ComplianceSeverity.critical)).length ∧
    (routeByCompliance sampleEvalState).1 = { sampleEvalState with
      has_critical_violations :=
        (routeByCompliance sampleEvalState).1.has_critical_violations,
      critical_violations := (routeByCompliance sampleEvalState).1.critical_violations } ∧
    ((routeByCompliance sampleEvalState).2 = "compliance_escalation" ↔
      ∃ e ∈ sampleEvalState.qa_evaluations,
        e.compliance_severity = ComplianceSeverity.critical) ∧
    (∀ t : QAAuditorState, t.has_critical_violations = false →
      t.critical_violations = [] → t.qa_evaluations = sampleEvalState.qa_evaluations →
      (routeByCompliance t).2 = (routeByCompliance sampleEvalState).2 ∧
      (routeByCompliance t).1.has_critical_violations
        = (routeByCompliance sampleEvalState).1.has_critical_violations ∧
      (routeByCompliance t).1.critical_violations
        = (routeByCompliance sampleEvalState).1.critical_violations) :=
  router_critical_violations sampleEvalState rfl rfl

/-- C6: when the stage-5 pattern-analysis call raises (the only failure path;
an unparsable result silently changes nothing), `agents_needing_coaching` is
replaced by exactly the deduplicated set of agent ids having at least one
evaluation with overall score below 70 or critical/major severity; an agent
with no such evaluation is never in the resulting list, and the list holds no
duplicates. -/
theorem pattern_failure_coaching_fallback (s : QAAuditorState)
    (hne : s.qa_evaluations ≠ []) :
    (detectPatterns PatternOutcome.raised s).agents_needing_coaching
      = coachingFallback s.qa_evaluations ∧
    (∀ a, a ∈ (detectPatterns PatternOutcome.raised s).agents_needing_coaching ↔
      ∃ e ∈ s.qa_evaluations, e.agent_id = a ∧
        (e.overall_score < 70 ∨ e.compliance_severity = ComplianceSeverity.critical ∨
          e.compliance_severity = ComplianceSeverity.major)) ∧
    (detectPatterns PatternOutcome.raised s).agents_needing_coaching.Nodup := by
  have hrun : (detectPatterns PatternOutcome.raised s).agents_needing_coaching
      = coachingFallback s.qa_evaluations := by
    have hie : s.qa_evaluations.isEmpty = false := by
      cases hqa : s.qa_evaluations with
      | nil => exact absurd hqa hne
      | cons x t => rfl
    simp [detectPatterns, hie]
  refine ⟨hrun, fun a => ?_, by rw [hrun]; exact List.nodup_dedup _⟩
  rw [hrun]
  simp only [coachingFallback, List.mem_dedup, List.mem_map, List.mem_filter,
    needsCoachingEval]
  constructor
  · rintro ⟨e, ⟨he, hcond⟩, rfl⟩
    refine ⟨e, he, rfl, ?_⟩
    simpa using hcond
  · rintro ⟨e, he, rfl, hcond⟩
    refine ⟨e, ⟨he, ?_⟩, rfl⟩
    simpa using hcond

/-- Witness for `pattern_failure_coaching_fallback` on the sample evaluation
state (one failing critical evaluation for agent A1, one clean for A2). -/
theorem pattern_failure_coaching_fallback_witness :
    (detectPatterns PatternOutcome.raised sampleEvalState).agents_needing_coaching
      = coachingFallback sampleEvalState.qa_evaluations ∧
    (∀ a, a ∈ (detectPatterns PatternOutcome.raised
        sampleEvalState).agents_needing_coaching ↔
      ∃ e ∈ sampleEvalState.qa_evaluations, e.agent_id = a ∧
        (e.overall_score < 70 ∨ e.compliance_severity = ComplianceSeverity.critical ∨
          e.compliance_severity = ComplianceSeverity.major)) ∧
    (detectPatterns PatternOutcome.raised
      sampleEvalState).agents_needing_coaching.Nodup := by
  have hne : sampleEvalState.qa_evaluations ≠ [] := by decide
  exact pattern_failure_coaching_fallback sampleEvalState hne

/-- C9: every run reaches the terminal stage, which sets
`processing_status = "complete"` unconditionally — including runs whose
stage 1 found no transcripts and set `failed_no_input` (third conjunct shows
that intermediate status on the empty-input state); no run ends in any other
status. -/
theorem pipeline_always_completes :
    ∀ (ros : List RiskOutcome) (qos : List QAOutcome) (po : PatternOutcome)
      (cos : List CoachOutcome) (t1 t2 : String) (s0 : QAAuditorState),
      (runFlow ros qos po cos t1 t2 s0).processing_status = "complete" ∧
      (runFlow ros qos po cos t1 t2
        { s0 with raw_transcripts := [] }).processing_status = "complete" ∧
      (ingestAndRiskScore ros
        { s0 with raw_transcripts := [] }).processing_status = "failed_no_input" :=
  fun _ _ _ _ _ _ _ => ⟨rfl, rfl, rfl⟩
